import Mathlib

/-!
# A shallow embedding of `main.c` (SDL2 2D shooter)

The C program keeps its state in globals (`game_screen`, `game_input`,
`player_sprite`, `tilemap`, `delta_time`).  Here every function takes the
globals it reads as arguments and returns the globals it writes.

* `float` values are exact rationals (`ℚ`): rounding is not modelled.
* `int` values are integers (`ℤ`); `/` and `%` of C are `Int.tdiv` and
  `Int.tmod` (truncating division and the remainder with the sign of the
  dividend).  All `int` products in the program are far below `2^31`.
* an `SDL_Texture *` is a number, `0` standing for `NULL`.
* a call of `draw_subimage_rect` is recorded as a `DrawCall`; a drawing
  function returns the list of the calls it issues, in order.
-/

namespace Shooter2D

/-! ## Constants -/

def GAME_WIDTH : Int := 368
def GAME_HEIGHT : Int := 240
def GAME_SCALE : Int := 3

/-- An `SDL_Texture *`; `0` is `NULL`. -/
abbrev Texture := Nat

/-! ## Data model -/

/-- The `Screen` struct (the three SDL handles are numbers). -/
structure Screen where
  window : Nat
  renderer : Nat
  backbuffer : Nat
  width : Int
  height : Int
  offset_x : Int
  offset_y : Int
  scale : Int
  is_full_screen : Bool
  deriving DecidableEq

/-- The `Input` struct: one flag per logical action. -/
structure Input where
  back : Bool
  start : Bool
  left : Bool
  right : Bool
  up : Bool
  down : Bool
  fire1 : Bool
  fire2 : Bool
  deriving DecidableEq

/-- The `Sprite` struct. -/
structure Sprite where
  active : Bool
  x : ℚ
  y : ℚ
  width : Int
  height : Int
  source_x : Int
  source_y : Int
  speed_x : ℚ
  speed_y : ℚ
  dir_x : Int
  dir_y : Int
  type : Int
  user_value1_float : Int
  texture : Texture
  deriving DecidableEq

/-- The `Tilemap` struct; `tile_postab` is the C array `int tile_postab[1024 * 2]`. -/
structure Tilemap where
  x : ℚ
  y : ℚ
  width : Int
  height : Int
  texture : Texture
  tilesize : Int
  tilesheet_width : Int
  tilesheet_height : Int
  tile_postab : List Int
  deriving DecidableEq

/-- Number of slots of `tile_postab` (`1024 * 2`). -/
def TILE_POSTAB_SIZE : Nat := 1024 * 2

/-- An `SDL_Rect`. -/
structure Rect where
  x : Int
  y : Int
  w : Int
  h : Int
  deriving DecidableEq

/-- One `SDL_RenderCopy` onto the backbuffer: texture, source and destination rectangle. -/
structure DrawCall where
  texture : Texture
  src : Rect
  dest : Rect
  deriving DecidableEq

/-- The key codes `check_keyboard` switches on.  Their values come from the SDL2
headers, which are not part of the program; they are a parameter here. -/
structure Keycodes where
  SDLK_ESCAPE : Int
  SDLK_LEFT : Int
  SDLK_RIGHT : Int
  SDLK_UP : Int
  SDLK_DOWN : Int
  SDLK_d : Int
  SDLK_f : Int
  deriving DecidableEq

/-- The `case` labels of a C `switch` are pairwise different. -/
def Keycodes.Distinct (K : Keycodes) : Prop :=
  [K.SDLK_ESCAPE, K.SDLK_LEFT, K.SDLK_RIGHT, K.SDLK_UP, K.SDLK_DOWN, K.SDLK_d, K.SDLK_f].Nodup

instance (K : Keycodes) : Decidable K.Distinct := by
  unfold Keycodes.Distinct; infer_instance

/-- The values of the seven key codes in SDL2 (`SDL_keycode.h`). -/
def sdl2Keycodes : Keycodes where
  SDLK_ESCAPE := 27
  SDLK_LEFT := 1073741904
  SDLK_RIGHT := 1073741903
  SDLK_UP := 1073741906
  SDLK_DOWN := 1073741905
  SDLK_d := 100
  SDLK_f := 102

/-- The globals of the program. -/
structure Game where
  game_screen : Screen
  game_input : Input
  player_sprite : Sprite
  tilemap : Tilemap
  spritesheet : Texture
  tilesheet : Texture
  delta_time : ℚ
  deriving DecidableEq

/-! ## Conversions -/

/-- Largest value of a 32-bit `int`. -/
def INT_MAX : Int := 2147483647

/-- Smallest value of a 32-bit `int`. -/
def INT_MIN : Int := -2147483648

/-- The C conversion `(int) f` of a float: the fractional part is discarded
(truncation toward zero).  The float is an exact rational and the result an
integer.  C defines the conversion only when the truncated value lies between
`INT_MIN` and `INT_MAX`; this function is the C conversion on that range, and
statements about values beyond it say nothing about the program. -/
def float_to_int (f : ℚ) : Int :=
  if 0 ≤ f then ⌊f⌋ else ⌈f⌉

/-! ## Input -/

/-- The function `check_keyboard(keycode, flag)`: a `switch` over the key code. -/
def check_keyboard (K : Keycodes) (keycode : Int) (flag : Bool) (game_input : Input) : Input :=
  if keycode = K.SDLK_ESCAPE then { game_input with back := flag }
  else if keycode = K.SDLK_LEFT then { game_input with left := flag }
  else if keycode = K.SDLK_RIGHT then { game_input with right := flag }
  else if keycode = K.SDLK_UP then { game_input with up := flag }
  else if keycode = K.SDLK_DOWN then { game_input with down := flag }
  else if keycode = K.SDLK_d then { game_input with fire1 := flag }
  else if keycode = K.SDLK_f then { game_input with fire2 := flag }
  else game_input

/-- The function `reset_input()`. -/
def reset_input (game_input : Input) : Input :=
  { game_input with
    back := false, start := false, left := false, right := false,
    up := false, down := false, fire1 := false, fire2 := false }

def keydown_back (game_input : Input) : Bool := game_input.back
def keydown_left (game_input : Input) : Bool := game_input.left
def keydown_right (game_input : Input) : Bool := game_input.right
def keydown_up (game_input : Input) : Bool := game_input.up
def keydown_down (game_input : Input) : Bool := game_input.down
def keydown_fire1 (game_input : Input) : Bool := game_input.fire1
def keydown_fire2 (game_input : Input) : Bool := game_input.fire2

/-- The function `check_events()`: the polled key events, each a key code with `true` for
`SDL_KEYDOWN` and `false` for `SDL_KEYUP`, are passed to `check_keyboard` in order. -/
def check_events (K : Keycodes) (events : List (Int × Bool)) (game_input : Input) : Input :=
  events.foldl (fun inp e => check_keyboard K e.1 e.2 inp) game_input

/-- Spec-side reading of "the most recent edge event per key": the flag of the last call
in the sequence whose key code is `key`, and `false` when there is no such call. -/
def last_flag (key : Int) (calls : List (Int × Bool)) : Bool :=
  match calls.reverse.find? (fun e => decide (e.1 = key)) with
  | some e => e.2
  | none => false

/-! ## Sprites and the player -/

/-- The function `sprite_init`: the texture is set only when it is not `NULL`. -/
def sprite_init (spr : Sprite) (x y : ℚ) (width height : Int) (texture : Texture)
    (source_x source_y : Int) : Sprite :=
  let spr := { spr with active := true, x := x, y := y, width := width, height := height }
  let spr := if texture ≠ 0 then { spr with texture := texture } else spr
  { spr with source_x := source_x, source_y := source_y }

/-- The function `sprite_set_speed`. -/
def sprite_set_speed (spr : Sprite) (x y : ℚ) : Sprite :=
  { spr with speed_x := x, speed_y := y }

/-- The function `player_init()`. -/
def player_init (spritesheet : Texture) (player_sprite : Sprite) : Sprite :=
  let speed : ℚ := 60
  let player_sprite := sprite_init player_sprite 100 100 24 16 spritesheet 48 16
  sprite_set_speed player_sprite speed speed

/-- The horizontal direction of `player_update`:
`dx = 0; if (keydown_right()) dx = 1; if (keydown_left()) dx = -1;`. -/
def player_dx (game_input : Input) : ℚ :=
  let dx : ℚ := 0
  let dx := if keydown_right game_input then 1 else dx
  let dx := if keydown_left game_input then -1 else dx
  dx

/-- The vertical direction of `player_update`:
`dy = 0; if (keydown_up()) dy = -1; if (keydown_down()) dy = 1;`. -/
def player_dy (game_input : Input) : ℚ :=
  let dy : ℚ := 0
  let dy := if keydown_up game_input then -1 else dy
  let dy := if keydown_down game_input then 1 else dy
  dy

/-- The two `+=` statements of `player_update` (the position before clamping). -/
def player_move (game_input : Input) (delta_time : ℚ) (player_sprite : Sprite) : Sprite :=
  let dx := player_dx game_input
  let dy := player_dy game_input
  let player_sprite :=
    { player_sprite with x := player_sprite.x + dx * player_sprite.speed_x * delta_time }
  { player_sprite with y := player_sprite.y + dy * player_sprite.speed_y * delta_time }

/-- The four clamping `if` statements that end `player_update`, in order. -/
def player_clamp (player_sprite : Sprite) : Sprite :=
  let player_sprite :=
    if player_sprite.x < 0 then { player_sprite with x := 0 } else player_sprite
  let player_sprite :=
    if player_sprite.y < 0 then { player_sprite with y := 0 } else player_sprite
  let player_sprite :=
    if player_sprite.x + (player_sprite.width : ℚ) > (GAME_WIDTH : ℚ) then
      { player_sprite with x := ((GAME_WIDTH - player_sprite.width : Int) : ℚ) }
    else player_sprite
  let player_sprite :=
    if player_sprite.y + (player_sprite.height : ℚ) > (GAME_HEIGHT : ℚ) then
      { player_sprite with y := ((GAME_HEIGHT - player_sprite.height : Int) : ℚ) }
    else player_sprite
  player_sprite

/-- The function `player_update()`: the move, then the clamp. -/
def player_update (game_input : Input) (delta_time : ℚ) (player_sprite : Sprite) : Sprite :=
  player_clamp (player_move game_input delta_time player_sprite)

/-- Runs `player_update` once per delta of a list, the input held fixed. -/
def player_updates (game_input : Input) (deltas : List ℚ) (player_sprite : Sprite) : Sprite :=
  deltas.foldl (fun spr d => player_update game_input d spr) player_sprite

/-- None of the four clamping conditions of `player_update` holds for the moved sprite,
so none of the clamping assignments runs. -/
def no_clamp (moved : Sprite) : Prop :=
  ¬ moved.x < 0 ∧ ¬ moved.y < 0 ∧
  ¬ moved.x + (moved.width : ℚ) > (GAME_WIDTH : ℚ) ∧
  ¬ moved.y + (moved.height : ℚ) > (GAME_HEIGHT : ℚ)

instance (moved : Sprite) : Decidable (no_clamp moved) := by
  unfold no_clamp; infer_instance

/-- The number of direction keys that are down. -/
def held_directions (game_input : Input) : Nat :=
  (if keydown_left game_input then 1 else 0) + (if keydown_right game_input then 1 else 0) +
  (if keydown_up game_input then 1 else 0) + (if keydown_down game_input then 1 else 0)

/-- No clamp triggers in any of the updates of `player_updates`. -/
def no_clamp_run (game_input : Input) : List ℚ → Sprite → Prop
  | [], _ => True
  | d :: ds, spr =>
    no_clamp (player_move game_input d spr) ∧
    no_clamp_run game_input ds (player_update game_input d spr)

/-! ## Tilemap -/

/-- The body of the inner loop of `tilemap_init`, on the pair `(c, tile_postab)`:
`tile_postab[c] = x * tilesize; tile_postab[c+1] = y * tilesize; c += 2;`. -/
def tile_postab_cell (tilesize : Int) (y x : Nat) (st : Nat × List Int) : Nat × List Int :=
  let tab := st.2.set st.1 ((x : Int) * tilesize)
  let tab := tab.set (st.1 + 1) ((y : Int) * tilesize)
  (st.1 + 2, tab)

/-- The inner loop of `tilemap_init`: `for (x = 0; x < cols; x++)`. -/
def tile_postab_row (tilesize : Int) (cols : Nat) (y : Nat) (st : Nat × List Int) :
    Nat × List Int :=
  (List.range cols).foldl
    (fun (st : Nat × List Int) (x : Nat) => tile_postab_cell tilesize y x st) st

/-- The outer loop of `tilemap_init`: `for (y = 0; y < rows; y++)`. -/
def tile_postab_rows (tilesize : Int) (rows cols : Nat) (st : Nat × List Int) :
    Nat × List Int :=
  (List.range rows).foldl
    (fun (st : Nat × List Int) (y : Nat) => tile_postab_row tilesize cols y st) st

/-- The function `tilemap_init(width, height, texture)` on the global `tilemap`. -/
def tilemap_init (width height : Int) (texture : Texture) (tilemap : Tilemap) : Tilemap :=
  let tilemap := { tilemap with x := 0, y := 0 }
  let tilemap := { tilemap with width := width, height := height }
  let tilemap := { tilemap with texture := texture }
  let tilemap := { tilemap with tilesize := 16 }
  let tilemap := { tilemap with tilesheet_width := 256, tilesheet_height := 256 }
  let c : Nat := 0
  let rows := (Int.tdiv tilemap.tilesheet_height tilemap.tilesize).toNat
  let cols := (Int.tdiv tilemap.tilesheet_width tilemap.tilesize).toNat
  let st := tile_postab_rows tilemap.tilesize rows cols (c, tilemap.tile_postab)
  { tilemap with tile_postab := st.2 }

/-- The function `tilemap_load`: a stub that reports success. -/
def tilemap_load (_filename : String) : Bool := true

/-- The function `draw_subimage_rect`: the source and destination rectangle handed to
`SDL_RenderCopy`. -/
def draw_subimage_rect (texture : Texture) (x y width height source_x source_y : Int) :
    DrawCall :=
  { texture := texture
    src := { x := source_x, y := source_y, w := width, h := height }
    dest := { x := x, y := y, w := width, h := height } }

/-- The local `soft_scroll_x` of `tilemap_draw`: `(int) tilemap.x % tilemap.tilesize`. -/
def soft_scroll_x (tilemap : Tilemap) : Int :=
  Int.tmod (float_to_int tilemap.x) tilemap.tilesize

/-- The function `tilemap_draw()`: the calls of `draw_subimage_rect`, rows outer, columns inner. -/
def tilemap_draw (game_screen : Screen) (tilemap : Tilemap) : List DrawCall :=
  let tile_id : Nat := 2
  let soft_scroll_x := soft_scroll_x tilemap
  (List.range (Int.tdiv game_screen.height tilemap.tilesize).toNat).flatMap fun (y : Nat) =>
    (List.range (Int.tdiv game_screen.width tilemap.tilesize + 1).toNat).map fun (x : Nat) =>
      let tile_x := (tilemap.tile_postab[tile_id * 2]?).getD 0
      let tile_y := (tilemap.tile_postab[tile_id * 2 + 1]?).getD 0
      draw_subimage_rect tilemap.texture
        (((x : Int) * tilemap.tilesize) - soft_scroll_x)
        ((y : Int) * tilemap.tilesize) tilemap.tilesize
        tilemap.tilesize
        tile_x tile_y

/-- A pixel `(px, py)` of the backbuffer lies inside the destination rectangle of a call. -/
def covers (call : DrawCall) (px py : Int) : Prop :=
  call.dest.x ≤ px ∧ px < call.dest.x + call.dest.w ∧
  call.dest.y ≤ py ∧ py < call.dest.y + call.dest.h

/-- Every pixel of the 368x240 backbuffer lies inside the destination of some call. -/
def covers_backbuffer (calls : List DrawCall) : Prop :=
  ∀ px py : Int, 0 ≤ px → px < GAME_WIDTH → 0 ≤ py → py < GAME_HEIGHT →
    ∃ call ∈ calls, covers call px py

/-- The calls of `tilemap_draw` without those of column `col`, which are the calls whose
destination starts at `col * tilesize - soft_scroll_x`. -/
def without_column (col : Int) (tilemap : Tilemap) (calls : List DrawCall) : List DrawCall :=
  calls.filter fun call => decide (call.dest.x ≠ col * tilemap.tilesize - soft_scroll_x tilemap)

/-! ## The game loop -/

/-- The scroll guard of `game_update`:
`tilemap.x - (tilemap.width * tilemap.tilesize) < (tilemap.width * tilemap.tilesize)`. -/
def scroll_guard (tilemap : Tilemap) : Prop :=
  tilemap.x - ((tilemap.width * tilemap.tilesize : Int) : ℚ)
    < ((tilemap.width * tilemap.tilesize : Int) : ℚ)

instance (tilemap : Tilemap) : Decidable (scroll_guard tilemap) := by
  unfold scroll_guard; infer_instance

/-- The function `game_update()`: the guarded scroll, then `player_update()`. -/
def game_update (g : Game) : Game :=
  let g :=
    if scroll_guard g.tilemap then
      { g with tilemap := { g.tilemap with x := g.tilemap.x + 15 * g.delta_time } }
    else g
  { g with player_sprite := player_update g.game_input g.delta_time g.player_sprite }

/-- What one iteration of the loop of `game_loop` receives from outside: the delta
measured by `delta_time_update` and the key events polled by `check_events`. -/
structure FrameInput where
  delta : ℚ
  events : List (Int × Bool)

/-- One iteration of `game_loop` on the globals:
`delta_time_update(); check_events(); game_update();` (`game_draw` changes no global). -/
def game_frame (K : Keycodes) (f : FrameInput) (g : Game) : Game :=
  let g := { g with delta_time := f.delta }
  let g := { g with game_input := check_events K f.events g.game_input }
  game_update g

/-- The statements of `game_loop` before its loop:
`player_init(); tilemap_init(40, 14, tilesheet);`. -/
def game_loop_start (g : Game) : Game :=
  let g := { g with player_sprite := player_init g.spritesheet g.player_sprite }
  { g with tilemap := tilemap_init 40 14 g.tilesheet g.tilemap }

/-- The globals after the given frames of `game_loop`. -/
def game_frames (K : Keycodes) (frames : List FrameInput) (g : Game) : Game :=
  frames.foldl (fun g f => game_frame K f g) g

/-! ## Zero-initialised globals (C static storage) -/

def input_zero : Input :=
  { back := false, start := false, left := false, right := false,
    up := false, down := false, fire1 := false, fire2 := false }

def sprite_zero : Sprite :=
  { active := false, x := 0, y := 0, width := 0, height := 0, source_x := 0, source_y := 0,
    speed_x := 0, speed_y := 0, dir_x := 0, dir_y := 0, type := 0, user_value1_float := 0,
    texture := 0 }

def tilemap_zero : Tilemap :=
  { x := 0, y := 0, width := 0, height := 0, texture := 0, tilesize := 0,
    tilesheet_width := 0, tilesheet_height := 0,
    tile_postab := List.replicate TILE_POSTAB_SIZE 0 }

def screen_zero : Screen :=
  { window := 0, renderer := 0, backbuffer := 0, width := 0, height := 0,
    offset_x := 0, offset_y := 0, scale := 0, is_full_screen := false }

/-- The fields `init_screen(width, height, scale)` assigns before it creates the window. -/
def init_screen (width height scale : Int) (game_screen : Screen) : Screen :=
  { game_screen with is_full_screen := false, width := width, height := height, scale := scale }

/-- The globals when `game_loop` is entered: zero-initialised, then `init_screen` with the
three constants, `reset_input`, and the two textures loaded by `game_preload`. -/
def game_zero (spritesheet tilesheet : Texture) : Game :=
  { game_screen := init_screen GAME_WIDTH GAME_HEIGHT GAME_SCALE screen_zero
    game_input := reset_input input_zero
    player_sprite := sprite_zero
    tilemap := tilemap_zero
    spritesheet := spritesheet
    tilesheet := tilesheet
    delta_time := 0 }

/-- Loop invariant of `tilemap_init` after `k` cells: `c = 2 * k`, the first `k` entries
hold the row-major positions, and every slot from `2 * k` on is as before. -/
def TabInv (ts : Int) (n : Nat) (old : List Int) (k : Nat) (st : Nat × List Int) : Prop :=
  st.1 = 2 * k ∧ st.2.length = old.length ∧
  (∀ i, i < k →
    st.2[2 * i]? = some (((i % n : Nat) : Int) * ts) ∧
    st.2[2 * i + 1]? = some (((i / n : Nat) : Int) * ts)) ∧
  (∀ j, 2 * k ≤ j → st.2[j]? = old[j]?)

/-! ## The player: clamp, key resolution, linearity -/

theorem player_clamp_bounds (spr : Sprite) (hw : spr.width = 24) (hh : spr.height = 16) :
    0 ≤ (player_clamp spr).x ∧ (player_clamp spr).x ≤ 344 ∧
    0 ≤ (player_clamp spr).y ∧ (player_clamp spr).y ≤ 224 := by
  unfold player_clamp
  simp only [GAME_WIDTH, GAME_HEIGHT]
  split_ifs <;> simp_all <;> (try constructor) <;> (try linarith)

theorem player_move_width (inp : Input) (d : ℚ) (spr : Sprite) :
    (player_move inp d spr).width = spr.width ∧ (player_move inp d spr).height = spr.height :=
  ⟨rfl, rfl⟩

/-- C1. Bounds clamp: for the player sprite (width 24, height 16) at any position, also one
outside the playfield, with any speed, any input state and any delta, one `player_update`
leaves `0 ≤ x ≤ 368 - 24` and `0 ≤ y ≤ 240 - 16`. -/
theorem player_update_within_playfield (game_input : Input) (delta_time : ℚ)
    (player_sprite : Sprite) (hw : player_sprite.width = 24) (hh : player_sprite.height = 16) :
    0 ≤ (player_update game_input delta_time player_sprite).x ∧
    (player_update game_input delta_time player_sprite).x ≤ ((GAME_WIDTH - 24 : Int) : ℚ) ∧
    0 ≤ (player_update game_input delta_time player_sprite).y ∧
    (player_update game_input delta_time player_sprite).y ≤ ((GAME_HEIGHT - 16 : Int) : ℚ) := by
  have h := player_clamp_bounds (player_move game_input delta_time player_sprite)
    (by rw [(player_move_width _ _ _).1, hw]) (by rw [(player_move_width _ _ _).2, hh])
  unfold player_update
  simp only [GAME_WIDTH, GAME_HEIGHT]
  norm_num
  exact h

/-- The player sprite of `player_init`, put far outside the playfield, with both keys of
each axis down, speed `(-7, 1000)` and a delta of `3/2`, is inside after one update. -/
theorem player_update_within_playfield_witness :
    ({ player_init 1 sprite_zero with x := -500, y := 9999, speed_x := -7, speed_y := 1000 }
        : Sprite).width = 24 ∧
    ({ player_init 1 sprite_zero with x := -500, y := 9999, speed_x := -7, speed_y := 1000 }
        : Sprite).height = 16 ∧
    (0 ≤ (player_update { input_zero with left := true, right := true, up := true, down := true }
        (3 / 2)
        { player_init 1 sprite_zero with
          x := -500, y := 9999, speed_x := -7, speed_y := 1000 }).x ∧
      (player_update { input_zero with left := true, right := true, up := true, down := true }
        (3 / 2)
        { player_init 1 sprite_zero with
          x := -500, y := 9999, speed_x := -7, speed_y := 1000 }).x
        ≤ ((GAME_WIDTH - 24 : Int) : ℚ) ∧
      0 ≤ (player_update { input_zero with left := true, right := true, up := true, down := true }
        (3 / 2)
        { player_init 1 sprite_zero with
          x := -500, y := 9999, speed_x := -7, speed_y := 1000 }).y ∧
      (player_update { input_zero with left := true, right := true, up := true, down := true }
        (3 / 2)
        { player_init 1 sprite_zero with
          x := -500, y := 9999, speed_x := -7, speed_y := 1000 }).y
        ≤ ((GAME_HEIGHT - 16 : Int) : ℚ)) :=
  ⟨rfl, rfl, player_update_within_playfield _ _ _ rfl rfl⟩

/-- C9. Opposite keys in `player_update`: the later check of each axis wins.  With left
and right both down the horizontal direction is `-1`, the position before clamping has
`x - speed_x * delta`, and the update is the one with only left down; with up and down
both down the vertical direction is `+1`, the position before clamping has
`y + speed_y * delta`, and the update is the one with only down down; with neither key of
an axis down the direction of that axis is `0` and the coordinate is not moved. -/
theorem player_update_opposite_keys (game_input : Input) (delta_time : ℚ)
    (player_sprite : Sprite) :
    (keydown_left game_input = true → keydown_right game_input = true →
      player_dx game_input = -1 ∧
      (player_move game_input delta_time player_sprite).x
        = player_sprite.x - player_sprite.speed_x * delta_time ∧
      player_update game_input delta_time player_sprite
        = player_update { game_input with right := false } delta_time player_sprite) ∧
    (keydown_up game_input = true → keydown_down game_input = true →
      player_dy game_input = 1 ∧
      (player_move game_input delta_time player_sprite).y
        = player_sprite.y + player_sprite.speed_y * delta_time ∧
      player_update game_input delta_time player_sprite
        = player_update { game_input with up := false } delta_time player_sprite) ∧
    (keydown_left game_input = false → keydown_right game_input = false →
      player_dx game_input = 0 ∧
      (player_move game_input delta_time player_sprite).x = player_sprite.x) ∧
    (keydown_up game_input = false → keydown_down game_input = false →
      player_dy game_input = 0 ∧
      (player_move game_input delta_time player_sprite).y = player_sprite.y) := by
  refine ⟨fun hl hr => ?_, fun hu hd => ?_, fun hl hr => ?_, fun hu hd => ?_⟩
  · simp only [keydown_left, keydown_right] at hl hr
    refine ⟨by simp [player_dx, keydown_left, keydown_right, hl], ?_, ?_⟩
    · simp [player_move, player_dx, keydown_left, keydown_right, hl]; ring
    · simp [player_update, player_move, player_dx, player_dy, keydown_left, keydown_right,
        keydown_up, keydown_down, hl]
  · simp only [keydown_up, keydown_down] at hu hd
    refine ⟨by simp [player_dy, keydown_up, keydown_down, hd], ?_, ?_⟩
    · simp [player_move, player_dy, keydown_up, keydown_down, hd]
    · simp [player_update, player_move, player_dx, player_dy, keydown_left, keydown_right,
        keydown_up, keydown_down, hd]
  · simp only [keydown_left, keydown_right] at hl hr
    simp [player_move, player_dx, keydown_left, keydown_right, hl, hr]
  · simp only [keydown_up, keydown_down] at hu hd
    simp [player_move, player_dy, keydown_up, keydown_down, hu, hd]

/-- With all four direction keys down, from `(100, 100)` at speed `(60, 60)` and a delta
of `1/2`: left wins (`x = 70`) and down wins (`y = 130`). -/
theorem player_update_opposite_keys_witness :
    (player_dx { input_zero with left := true, right := true, up := true, down := true } = -1 ∧
      (player_move { input_zero with left := true, right := true, up := true, down := true }
          (1 / 2) (player_init 1 sprite_zero)).x
        = (player_init 1 sprite_zero).x - (player_init 1 sprite_zero).speed_x * (1 / 2) ∧
      player_update { input_zero with left := true, right := true, up := true, down := true }
          (1 / 2) (player_init 1 sprite_zero)
        = player_update { input_zero with left := true, up := true, down := true }
            (1 / 2) (player_init 1 sprite_zero)) ∧
    (player_update { input_zero with left := true, right := true, up := true, down := true }
        (1 / 2) (player_init 1 sprite_zero)).x = 70 ∧
    (player_update { input_zero with left := true, right := true, up := true, down := true }
        (1 / 2) (player_init 1 sprite_zero)).y = 130 :=
  ⟨(player_update_opposite_keys
      { input_zero with left := true, right := true, up := true, down := true }
      (1 / 2) (player_init 1 sprite_zero)).1 rfl rfl,
    by norm_num [player_update, player_clamp, player_move, player_dx, player_dy, keydown_left,
      keydown_right, keydown_up, keydown_down, player_init, sprite_init, sprite_set_speed,
      sprite_zero, input_zero, GAME_WIDTH, GAME_HEIGHT],
    by norm_num [player_update, player_clamp, player_move, player_dx, player_dy, keydown_left,
      keydown_right, keydown_up, keydown_down, player_init, sprite_init, sprite_set_speed,
      sprite_zero, input_zero, GAME_WIDTH, GAME_HEIGHT]⟩

theorem player_clamp_of_no_clamp (moved : Sprite) (h : no_clamp moved) :
    player_clamp moved = moved := by
  obtain ⟨h1, h2, h3, h4⟩ := h
  unfold player_clamp
  simp only [h1, h2, h3, h4, if_false]

theorem player_move_zero (inp : Input) (spr : Sprite) : player_move inp 0 spr = spr := by
  simp [player_move]

theorem player_move_add (inp : Input) (d e : ℚ) (spr : Sprite) :
    player_move inp e (player_move inp d spr) = player_move inp (d + e) spr := by
  simp only [player_move, Sprite.mk.injEq, true_and, and_true]
  constructor <;> ring

/-- A run without clamping is a single move by the sum of the deltas, and after a
non-empty run that single move does not clamp either. -/
theorem player_updates_eq_move (inp : Input) :
    ∀ (ds : List ℚ) (spr : Sprite), no_clamp_run inp ds spr →
      player_updates inp ds spr = player_move inp ds.sum spr ∧
      (ds ≠ [] → no_clamp (player_move inp ds.sum spr))
  | [], spr, _ => by simp [player_updates, player_move_zero]
  | d :: ds, spr, h => by
    obtain ⟨h1, h2⟩ := h
    have hstep : player_update inp d spr = player_move inp d spr :=
      player_clamp_of_no_clamp _ h1
    rw [hstep] at h2
    obtain ⟨ih1, ih2⟩ := player_updates_eq_move inp ds (player_move inp d spr) h2
    have hrun : player_updates inp (d :: ds) spr
        = player_updates inp ds (player_move inp d spr) := by
      simp only [player_updates, List.foldl_cons, hstep]
    refine ⟨by rw [hrun, ih1, player_move_add, List.sum_cons], fun _ => ?_⟩
    rw [List.sum_cons, ← player_move_add]
    by_cases hds : ds = []
    · subst hds
      simpa [player_move_zero] using h1
    · exact ih2 hds

/-- C4. Velocity scaling linearity: for a sprite with speed `(60, 60)` and exactly one
direction key held, over any list of deltas during which no clamp triggers, the updates
move the position by `60 * (d1 + ... + dn)` along the axis of the key, signed by its
direction, and by `0` along the other axis; that is the result of one `player_update`
with the delta `d1 + ... + dn`, for a list `d1..dn` with `n ≥ 1` and also for the empty
list when the sprite is inside the playfield.  The deltas may be any numbers, so in
particular any non-negative ones. -/
theorem player_updates_linear (game_input : Input) (deltas : List ℚ) (player_sprite : Sprite)
    (hsx : player_sprite.speed_x = 60) (hsy : player_sprite.speed_y = 60)
    (hone : held_directions game_input = 1)
    (hrun : no_clamp_run game_input deltas player_sprite) :
    (keydown_right game_input = true →
      (player_updates game_input deltas player_sprite).x = player_sprite.x + 60 * deltas.sum ∧
      (player_updates game_input deltas player_sprite).y = player_sprite.y) ∧
    (keydown_left game_input = true →
      (player_updates game_input deltas player_sprite).x = player_sprite.x - 60 * deltas.sum ∧
      (player_updates game_input deltas player_sprite).y = player_sprite.y) ∧
    (keydown_up game_input = true →
      (player_updates game_input deltas player_sprite).y = player_sprite.y - 60 * deltas.sum ∧
      (player_updates game_input deltas player_sprite).x = player_sprite.x) ∧
    (keydown_down game_input = true →
      (player_updates game_input deltas player_sprite).y = player_sprite.y + 60 * deltas.sum ∧
      (player_updates game_input deltas player_sprite).x = player_sprite.x) ∧
    (deltas ≠ [] ∨ no_clamp player_sprite →
      player_updates game_input deltas player_sprite
        = player_update game_input deltas.sum player_sprite) := by
  obtain ⟨hmove, hnc⟩ := player_updates_eq_move game_input deltas player_sprite hrun
  rw [hmove]
  have hx : (player_move game_input deltas.sum player_sprite).x
      = player_sprite.x + player_dx game_input * 60 * deltas.sum := by
    simp [player_move, hsx]
  have hy : (player_move game_input deltas.sum player_sprite).y
      = player_sprite.y + player_dy game_input * 60 * deltas.sum := by
    simp [player_move, hsy]
  rw [hx, hy]
  simp only [held_directions, player_dx, player_dy] at *
  refine ⟨fun h => ?_, fun h => ?_, fun h => ?_, fun h => ?_, fun h => ?_⟩
  · cases hl : keydown_left game_input <;> cases hu : keydown_up game_input <;>
      cases hd : keydown_down game_input <;> simp_all
  · cases hr : keydown_right game_input <;> cases hu : keydown_up game_input <;>
      cases hd : keydown_down game_input <;> simp_all
    ring
  · cases hr : keydown_right game_input <;> cases hl : keydown_left game_input <;>
      cases hd : keydown_down game_input <;> simp_all
    ring
  · cases hr : keydown_right game_input <;> cases hl : keydown_left game_input <;>
      cases hu : keydown_up game_input <;> simp_all
  · by_cases hds : deltas = []
    · subst hds
      rcases h with h | h
      · exact absurd rfl h
      · rw [List.sum_nil, player_update, player_move_zero, player_clamp_of_no_clamp _ h]
    · exact (player_clamp_of_no_clamp _ (hnc hds)).symm

/-- From `(100, 100)` at speed `(60, 60)`, holding right for one delta of `1` gives
`x = 160`, `y = 100`, and so do the three deltas `1/2, 1/4, 1/4`, which is also the result
of the single update with their sum. -/
theorem player_updates_linear_witness :
    (player_init 1 sprite_zero).speed_x = 60 ∧ (player_init 1 sprite_zero).speed_y = 60 ∧
    held_directions { input_zero with right := true } = 1 ∧
    no_clamp_run { input_zero with right := true } [1] (player_init 1 sprite_zero) ∧
    no_clamp_run { input_zero with right := true } [1 / 2, 1 / 4, 1 / 4]
      (player_init 1 sprite_zero) ∧
    (player_updates { input_zero with right := true } [1] (player_init 1 sprite_zero)).x
      = 160 ∧
    (player_updates { input_zero with right := true } [1] (player_init 1 sprite_zero)).y
      = 100 ∧
    (player_updates { input_zero with right := true } [1 / 2, 1 / 4, 1 / 4]
      (player_init 1 sprite_zero)).x = 160 ∧
    player_updates { input_zero with right := true } [1 / 2, 1 / 4, 1 / 4]
        (player_init 1 sprite_zero)
      = player_update { input_zero with right := true } 1 (player_init 1 sprite_zero) := by
  have hrun1 : no_clamp_run { input_zero with right := true } [1] (player_init 1 sprite_zero) := by
    norm_num [no_clamp_run, no_clamp, player_update, player_clamp, player_move, player_dx,
      player_dy, keydown_left, keydown_right, keydown_up, keydown_down, player_init,
      sprite_init, sprite_set_speed, sprite_zero, input_zero, GAME_WIDTH, GAME_HEIGHT]
  have hrun3 : no_clamp_run { input_zero with right := true } [1 / 2, 1 / 4, 1 / 4]
      (player_init 1 sprite_zero) := by
    norm_num [no_clamp_run, no_clamp, player_update, player_clamp, player_move, player_dx,
      player_dy, keydown_left, keydown_right, keydown_up, keydown_down, player_init,
      sprite_init, sprite_set_speed, sprite_zero, input_zero, GAME_WIDTH, GAME_HEIGHT]
  have h1 := player_updates_linear { input_zero with right := true } [1]
    (player_init 1 sprite_zero) rfl rfl (by decide) hrun1
  have h3 := player_updates_linear { input_zero with right := true } [1 / 2, 1 / 4, 1 / 4]
    (player_init 1 sprite_zero) rfl rfl (by decide) hrun3
  have hx0 : (player_init 1 sprite_zero).x = 100 := rfl
  have hy0 : (player_init 1 sprite_zero).y = 100 := rfl
  have hs : ([1 / 2, 1 / 4, 1 / 4] : List ℚ).sum = 1 := by norm_num
  refine ⟨rfl, rfl, by decide, hrun1, hrun3, ?_, ?_, ?_, ?_⟩
  · rw [(h1.1 rfl).1, hx0]; norm_num
  · rw [(h1.1 rfl).2, hy0]
  · rw [(h3.1 rfl).1, hx0, hs]; norm_num
  · rw [h3.2.2.2.2 (Or.inl (by simp)), hs]

/-! ## Input state -/

theorem last_flag_nil (key : Int) : last_flag key [] = false := rfl

theorem last_flag_concat (key : Int) (calls : List (Int × Bool)) (e : Int × Bool) :
    last_flag key (calls ++ [e]) = if e.1 = key then e.2 else last_flag key calls := by
  unfold last_flag
  rw [List.reverse_append, List.reverse_singleton, List.singleton_append, List.find?_cons]
  by_cases h : e.1 = key <;> simp [h]

theorem check_events_concat (K : Keycodes) (calls : List (Int × Bool)) (e : Int × Bool)
    (inp : Input) :
    check_events K (calls ++ [e]) inp = check_keyboard K e.1 e.2 (check_events K calls inp) := by
  simp [check_events, List.foldl_append]

/-- The effect of one `check_keyboard` call on each of the eight flags. -/
theorem check_keyboard_fields (K : Keycodes) (hK : K.Distinct) (k : Int) (f : Bool)
    (inp : Input) :
    (check_keyboard K k f inp).back = (if k = K.SDLK_ESCAPE then f else inp.back) ∧
    (check_keyboard K k f inp).left = (if k = K.SDLK_LEFT then f else inp.left) ∧
    (check_keyboard K k f inp).right = (if k = K.SDLK_RIGHT then f else inp.right) ∧
    (check_keyboard K k f inp).up = (if k = K.SDLK_UP then f else inp.up) ∧
    (check_keyboard K k f inp).down = (if k = K.SDLK_DOWN then f else inp.down) ∧
    (check_keyboard K k f inp).fire1 = (if k = K.SDLK_d then f else inp.fire1) ∧
    (check_keyboard K k f inp).fire2 = (if k = K.SDLK_f then f else inp.fire2) ∧
    (check_keyboard K k f inp).start = inp.start := by
  simp only [Keycodes.Distinct, List.nodup_cons, List.mem_cons, List.mem_singleton,
    not_or, List.not_mem_nil, not_false_eq_true, List.nodup_nil, and_true] at hK
  obtain ⟨⟨h12, h13, h14, h15, h16, h17⟩, ⟨h23, h24, h25, h26, h27⟩, ⟨h34, h35, h36, h37⟩,
    ⟨h45, h46, h47⟩, ⟨h56, h57⟩, h67⟩ := hK
  unfold check_keyboard
  by_cases e1 : k = K.SDLK_ESCAPE
  · subst e1; simp [*]
  by_cases e2 : k = K.SDLK_LEFT
  · subst e2; simp [*]
  by_cases e3 : k = K.SDLK_RIGHT
  · subst e3; simp [*]
  by_cases e4 : k = K.SDLK_UP
  · subst e4; simp [*]
  by_cases e5 : k = K.SDLK_DOWN
  · subst e5; simp [*]
  by_cases e6 : k = K.SDLK_d
  · subst e6; simp [*]
  by_cases e7 : k = K.SDLK_f
  · subst e7; simp [*]
  simp [*]

/-- After `reset_input` and any sequence of calls, every flag is the last flag sent for
its key, and `start` is `false`. -/
theorem check_events_fields (K : Keycodes) (hK : K.Distinct) (calls : List (Int × Bool))
    (inp0 : Input) :
    (check_events K calls (reset_input inp0)).back = last_flag K.SDLK_ESCAPE calls ∧
    (check_events K calls (reset_input inp0)).left = last_flag K.SDLK_LEFT calls ∧
    (check_events K calls (reset_input inp0)).right = last_flag K.SDLK_RIGHT calls ∧
    (check_events K calls (reset_input inp0)).up = last_flag K.SDLK_UP calls ∧
    (check_events K calls (reset_input inp0)).down = last_flag K.SDLK_DOWN calls ∧
    (check_events K calls (reset_input inp0)).fire1 = last_flag K.SDLK_d calls ∧
    (check_events K calls (reset_input inp0)).fire2 = last_flag K.SDLK_f calls ∧
    (check_events K calls (reset_input inp0)).start = false := by
  induction calls using List.reverseRecOn with
  | nil => simp [check_events, reset_input, last_flag_nil]
  | append_singleton calls e ih =>
    obtain ⟨i1, i2, i3, i4, i5, i6, i7, i8⟩ := ih
    obtain ⟨c1, c2, c3, c4, c5, c6, c7, c8⟩ :=
      check_keyboard_fields K hK e.1 e.2 (check_events K calls (reset_input inp0))
    simp only [check_events_concat, last_flag_concat, c1, c2, c3, c4, c5, c6, c7, c8,
      i1, i2, i3, i4, i5, i6, i7, i8, and_self]

/-- C7. Input state reflects the most recent edge event per key: after `reset_input` and
any sequence of `check_keyboard` calls, each `keydown_*` read returns the flag of the last
call whose key code is the key of that action (Escape, Left, Right, Up, Down, d, f), and
`false` when there is none, and `start` stays `false`; a call with any other key code
leaves the whole input state unchanged, and a call with a recognised key code changes
only the flag of its own action. -/
theorem input_reflects_last_edge (K : Keycodes) (hK : K.Distinct) :
    (∀ (calls : List (Int × Bool)) (inp0 : Input),
      keydown_back (check_events K calls (reset_input inp0)) = last_flag K.SDLK_ESCAPE calls ∧
      keydown_left (check_events K calls (reset_input inp0)) = last_flag K.SDLK_LEFT calls ∧
      keydown_right (check_events K calls (reset_input inp0)) = last_flag K.SDLK_RIGHT calls ∧
      keydown_up (check_events K calls (reset_input inp0)) = last_flag K.SDLK_UP calls ∧
      keydown_down (check_events K calls (reset_input inp0)) = last_flag K.SDLK_DOWN calls ∧
      keydown_fire1 (check_events K calls (reset_input inp0)) = last_flag K.SDLK_d calls ∧
      keydown_fire2 (check_events K calls (reset_input inp0)) = last_flag K.SDLK_f calls ∧
      (check_events K calls (reset_input inp0)).start = false) ∧
    (∀ (inp : Input) (keycode : Int) (flag : Bool),
      keycode ∉ [K.SDLK_ESCAPE, K.SDLK_LEFT, K.SDLK_RIGHT, K.SDLK_UP, K.SDLK_DOWN,
        K.SDLK_d, K.SDLK_f] →
      check_keyboard K keycode flag inp = inp) ∧
    (∀ (inp : Input) (flag : Bool),
      check_keyboard K K.SDLK_ESCAPE flag inp = { inp with back := flag } ∧
      check_keyboard K K.SDLK_LEFT flag inp = { inp with left := flag } ∧
      check_keyboard K K.SDLK_RIGHT flag inp = { inp with right := flag } ∧
      check_keyboard K K.SDLK_UP flag inp = { inp with up := flag } ∧
      check_keyboard K K.SDLK_DOWN flag inp = { inp with down := flag } ∧
      check_keyboard K K.SDLK_d flag inp = { inp with fire1 := flag } ∧
      check_keyboard K K.SDLK_f flag inp = { inp with fire2 := flag }) := by
  refine ⟨fun calls inp0 => check_events_fields K hK calls inp0, ?_, ?_⟩
  · intro inp keycode flag hk
    simp only [List.mem_cons, List.mem_singleton, List.not_mem_nil, or_false, not_or] at hk
    obtain ⟨e1, e2, e3, e4, e5, e6, e7⟩ := hk
    simp [check_keyboard, e1, e2, e3, e4, e5, e6, e7]
  · intro inp flag
    simp only [Keycodes.Distinct, List.nodup_cons, List.mem_cons, List.mem_singleton,
      not_or, List.not_mem_nil, not_false_eq_true, List.nodup_nil, and_true] at hK
    obtain ⟨⟨h12, h13, h14, h15, h16, h17⟩, ⟨h23, h24, h25, h26, h27⟩, ⟨h34, h35, h36, h37⟩,
      ⟨h45, h46, h47⟩, ⟨h56, h57⟩, h67⟩ := hK
    unfold check_keyboard
    refine ⟨?_, ?_, ?_, ?_, ?_, ?_, ?_⟩ <;> simp [*, Ne.symm]

/-- With the SDL2 key codes: after a reset, the calls Left down, an unknown key down, Left
up, Right down, d down, Right down leave exactly `right` and `fire1` set; directly after a
reset every read is `false`. -/
theorem input_reflects_last_edge_witness :
    sdl2Keycodes.Distinct ∧
    check_events sdl2Keycodes
        [(1073741904, true), (999, true), (1073741904, false), (1073741903, true),
          (100, true), (1073741903, true)]
        (reset_input { input_zero with start := true, left := true, fire2 := true })
      = { input_zero with right := true, fire1 := true } ∧
    keydown_left (check_events sdl2Keycodes
        [(1073741904, true), (999, true), (1073741904, false), (1073741903, true),
          (100, true), (1073741903, true)]
        (reset_input { input_zero with start := true, left := true, fire2 := true }))
      = last_flag sdl2Keycodes.SDLK_LEFT
        [(1073741904, true), (999, true), (1073741904, false), (1073741903, true),
          (100, true), (1073741903, true)] ∧
    keydown_back (check_events sdl2Keycodes []
        (reset_input { input_zero with start := true, left := true, fire2 := true }))
      = false :=
  ⟨by decide, by decide,
    ((input_reflects_last_edge sdl2Keycodes (by decide)).1 _ _).2.1,
    ((input_reflects_last_edge sdl2Keycodes (by decide)).1 [] _).1⟩


/-! ## The tile position table -/

theorem tabInv_cell (ts : Int) (n : Nat) (old : List Int) (y x : Nat) (st : Nat × List Int)
    (hx : x < n) (hlen : 2 * (y * n + x) + 1 < old.length)
    (h : TabInv ts n old (y * n + x) st) :
    TabInv ts n old (y * n + x + 1) (tile_postab_cell ts y x st) := by
  obtain ⟨hc, hl, hlow, hhigh⟩ := h
  have hmod : (y * n + x) % n = x := by
    rw [Nat.add_comm, Nat.add_mul_mod_self_right, Nat.mod_eq_of_lt hx]
  have hdiv : (y * n + x) / n = y := by
    have hn : 0 < n := by omega
    rw [Nat.add_comm, Nat.add_mul_div_right _ _ hn, Nat.div_eq_of_lt hx, Nat.zero_add]
  refine ⟨by simp [tile_postab_cell, hc]; omega, by simp [tile_postab_cell, hl], ?_, ?_⟩
  · intro i hi
    simp only [tile_postab_cell, hc, List.getElem?_set, List.length_set, hl]
    by_cases hik : i = y * n + x
    · subst hik
      have h1 : ¬ (2 * (y * n + x) + 1 = 2 * (y * n + x)) := by omega
      have h2 : 2 * (y * n + x) < old.length := by omega
      simp [h1, h2, hlen, hmod, hdiv]
    · have hi' : i < y * n + x := by omega
      have h1 : ¬ (2 * (y * n + x) + 1 = 2 * i) := by omega
      have h2 : ¬ (2 * (y * n + x) = 2 * i) := by omega
      have h3 : ¬ (2 * (y * n + x) + 1 = 2 * i + 1) := by omega
      have h4 : ¬ (2 * (y * n + x) = 2 * i + 1) := by omega
      simp only [h1, h2, h3, h4, if_false]
      exact hlow i hi'
  · intro j hj
    simp only [tile_postab_cell, hc, List.getElem?_set, List.length_set, hl]
    have h1 : ¬ (2 * (y * n + x) + 1 = j) := by omega
    have h2 : ¬ (2 * (y * n + x) = j) := by omega
    simp only [h1, h2, if_false]
    exact hhigh j (by omega)

theorem tabInv_row (ts : Int) (n : Nat) (old : List Int) (y : Nat) :
    ∀ (m : Nat) (st : Nat × List Int), m ≤ n → 2 * (y * n + m) ≤ old.length →
      TabInv ts n old (y * n) st →
      TabInv ts n old (y * n + m)
        ((List.range m).foldl
          (fun (st : Nat × List Int) (x : Nat) => tile_postab_cell ts y x st) st)
  | 0, st, _, _, h => by simpa using h
  | m + 1, st, hm, hlen, h => by
    rw [List.range_succ, List.foldl_append]
    have ih := tabInv_row ts n old y m st (by omega) (by omega) h
    exact tabInv_cell ts n old y m _ (by omega) (by omega) ih

theorem tabInv_rows (ts : Int) (n : Nat) (old : List Int) :
    ∀ (r : Nat) (st : Nat × List Int), 2 * (r * n) ≤ old.length →
      TabInv ts n old 0 st → TabInv ts n old (r * n) (tile_postab_rows ts r n st)
  | 0, st, _, h => by simpa [tile_postab_rows] using h
  | r + 1, st, hlen, h => by
    unfold tile_postab_rows
    rw [List.range_succ, List.foldl_append]
    have hle : r * n + n = (r + 1) * n := by ring
    have ih := tabInv_rows ts n old r st (by rw [← hle] at hlen; omega) h
    have := tabInv_row ts n old r n _ (le_refl n) (by rw [hle]; exact hlen) ih
    rw [hle] at this
    simpa [tile_postab_row] using this

theorem tilemap_init_fields (width height : Int) (texture : Texture) (tilemap : Tilemap) :
    (tilemap_init width height texture tilemap).x = 0 ∧
    (tilemap_init width height texture tilemap).y = 0 ∧
    (tilemap_init width height texture tilemap).width = width ∧
    (tilemap_init width height texture tilemap).height = height ∧
    (tilemap_init width height texture tilemap).texture = texture ∧
    (tilemap_init width height texture tilemap).tilesize = 16 ∧
    (tilemap_init width height texture tilemap).tilesheet_width = 256 ∧
    (tilemap_init width height texture tilemap).tilesheet_height = 256 ∧
    (tilemap_init width height texture tilemap).tile_postab
      = (tile_postab_rows 16 16 16 (0, tilemap.tile_postab)).2 := by
  have hr : (Int.tdiv 256 16).toNat = 16 := by decide
  refine ⟨rfl, rfl, rfl, rfl, rfl, rfl, rfl, rfl, ?_⟩
  unfold tilemap_init
  simp only [hr]

/-- The invariant at the end of the two loops of `tilemap_init`: 256 cells are done. -/
theorem tilemap_init_tabInv (width height : Int) (texture : Texture) (tilemap : Tilemap)
    (hlen : tilemap.tile_postab.length = TILE_POSTAB_SIZE) :
    TabInv 16 16 tilemap.tile_postab 256
      (tile_postab_rows 16 16 16 (0, tilemap.tile_postab)) ∧
    (tilemap_init width height texture tilemap).tile_postab
      = (tile_postab_rows 16 16 16 (0, tilemap.tile_postab)).2 := by
  refine ⟨?_, (tilemap_init_fields width height texture tilemap).2.2.2.2.2.2.2.2⟩
  have h0 : TabInv 16 16 tilemap.tile_postab 0 (0, tilemap.tile_postab) :=
    ⟨rfl, rfl, fun i hi => absurd hi (Nat.not_lt_zero i), fun _ _ => rfl⟩
  have := tabInv_rows 16 16 tilemap.tile_postab 16 (0, tilemap.tile_postab)
    (by rw [hlen]; decide) h0
  simpa using this

/-- The atlas position stored for tile `i` by `tilemap_init`, for `i < 256`. -/
theorem tilemap_init_entry (width height : Int) (texture : Texture) (tilemap : Tilemap)
    (hlen : tilemap.tile_postab.length = TILE_POSTAB_SIZE) (i : Nat) (hi : i < 256) :
    (tilemap_init width height texture tilemap).tile_postab[2 * i]?
      = some (((i % 16 : Nat) : Int) * 16) ∧
    (tilemap_init width height texture tilemap).tile_postab[2 * i + 1]?
      = some (((i / 16 : Nat) : Int) * 16) := by
  obtain ⟨⟨_, _, hlow, _⟩, htab⟩ := tilemap_init_tabInv width height texture tilemap hlen
  rw [htab]
  exact hlow i hi

/-- C3. Lookup table construction: after `tilemap_init`, for any width and height
arguments, the table holds 256 entries in row-major order: for every `i < 256`,
`tile_postab[2*i] = (i mod 16) * 16` and `tile_postab[2*i+1] = (i div 16) * 16`; entry 0 is
`(0,0)`, entry 1 is `(16,0)`, entry 16 is `(0,16)`, entry 255 is `(240,240)`; every slot at
position `512` or above keeps the value it had, whatever that was, and the array keeps
its `2048` slots. -/
theorem tilemap_init_tile_postab (width height : Int) (texture : Texture) (tilemap : Tilemap)
    (hlen : tilemap.tile_postab.length = TILE_POSTAB_SIZE) :
    (∀ i, i < (256 / 16) * (256 / 16) →
      (tilemap_init width height texture tilemap).tile_postab[2 * i]?
        = some (((i % 16 : Nat) : Int) * 16) ∧
      (tilemap_init width height texture tilemap).tile_postab[2 * i + 1]?
        = some (((i / 16 : Nat) : Int) * 16)) ∧
    ((tilemap_init width height texture tilemap).tile_postab[0]? = some 0 ∧
      (tilemap_init width height texture tilemap).tile_postab[1]? = some 0) ∧
    ((tilemap_init width height texture tilemap).tile_postab[2]? = some 16 ∧
      (tilemap_init width height texture tilemap).tile_postab[3]? = some 0) ∧
    ((tilemap_init width height texture tilemap).tile_postab[32]? = some 0 ∧
      (tilemap_init width height texture tilemap).tile_postab[33]? = some 16) ∧
    ((tilemap_init width height texture tilemap).tile_postab[510]? = some 240 ∧
      (tilemap_init width height texture tilemap).tile_postab[511]? = some 240) ∧
    (∀ j, 512 ≤ j →
      (tilemap_init width height texture tilemap).tile_postab[j]? = tilemap.tile_postab[j]?) ∧
    (tilemap_init width height texture tilemap).tile_postab.length = TILE_POSTAB_SIZE := by
  obtain ⟨⟨_, hl, _, hhigh⟩, htab⟩ := tilemap_init_tabInv width height texture tilemap hlen
  refine ⟨fun i hi => tilemap_init_entry width height texture tilemap hlen i hi, ?_, ?_, ?_, ?_,
    ?_, ?_⟩
  · simpa using tilemap_init_entry width height texture tilemap hlen 0 (by decide)
  · simpa using tilemap_init_entry width height texture tilemap hlen 1 (by decide)
  · simpa using tilemap_init_entry width height texture tilemap hlen 16 (by decide)
  · simpa using tilemap_init_entry width height texture tilemap hlen 255 (by decide)
  · intro j hj
    rw [htab]
    exact hhigh j (by omega)
  · rw [htab, hl, hlen]

/-- On the zero-initialised global, after `tilemap_init(40, 14, 7)`: entry 255 is
`(240, 240)`, entry 37 is `(80, 32)`, and slot `512` still holds `0`. -/
theorem tilemap_init_tile_postab_witness :
    tilemap_zero.tile_postab.length = TILE_POSTAB_SIZE ∧
    (tilemap_init 40 14 7 tilemap_zero).tile_postab[510]? = some 240 ∧
    (tilemap_init 40 14 7 tilemap_zero).tile_postab[511]? = some 240 ∧
    (tilemap_init 40 14 7 tilemap_zero).tile_postab[2 * 37]? = some 80 ∧
    (tilemap_init 40 14 7 tilemap_zero).tile_postab[2 * 37 + 1]? = some 32 ∧
    (tilemap_init 40 14 7 tilemap_zero).tile_postab[512]? = some 0 := by
  have hlen : tilemap_zero.tile_postab.length = TILE_POSTAB_SIZE := by
    simp [tilemap_zero]
  have h := tilemap_init_tile_postab 40 14 7 tilemap_zero hlen
  refine ⟨hlen, h.2.2.2.2.1.1, h.2.2.2.2.1.2, ?_, ?_, ?_⟩
  · simpa using (h.1 37 (by decide)).1
  · simpa using (h.1 37 (by decide)).2
  · rw [h.2.2.2.2.2.1 512 (le_refl 512)]
    simp only [tilemap_zero, TILE_POSTAB_SIZE, List.getElem?_replicate]
    decide

/-! ## Drawing the tilemap -/

/-- The calls of `tilemap_draw` on the 368x240 screen for a tilemap with tile size 16 whose
table has entry 2 at `(32, 0)`: 15 rows of 24 columns. -/
theorem tilemap_draw_eq (game_screen : Screen) (hw : game_screen.width = GAME_WIDTH)
    (hh : game_screen.height = GAME_HEIGHT) (tm : Tilemap) (hts : tm.tilesize = 16)
    (h4 : tm.tile_postab[4]? = some 32) (h5 : tm.tile_postab[5]? = some 0) :
    tilemap_draw game_screen tm
      = (List.range 15).flatMap fun (y : Nat) => (List.range 24).map fun (x : Nat) =>
          draw_subimage_rect tm.texture ((x : Int) * 16 - soft_scroll_x tm) ((y : Int) * 16)
            16 16 32 0 := by
  have hr : (Int.tdiv 240 16).toNat = 15 := by decide
  have hc : (Int.tdiv 368 16 + 1).toNat = 24 := by decide
  unfold tilemap_draw
  simp only [hw, hh, hts, GAME_WIDTH, GAME_HEIGHT, hr, hc]
  norm_num [h4, h5]

/-- A list built by two nested loops, `r` rows of `c` columns, has `r * c` elements. -/
theorem grid_length {α : Type} (f : Nat → Nat → α) (c : Nat) :
    ∀ r : Nat, ((List.range r).flatMap fun y => (List.range c).map (f y)).length = r * c
  | 0 => by simp
  | r + 1 => by
    rw [List.range_succ, List.flatMap_append, List.length_append, grid_length f c r,
      List.flatMap_singleton, List.length_map, List.length_range]
    ring

/-- In such a list the element of row `y` and column `x` is at position `y * c + x`. -/
theorem grid_getElem? {α : Type} (f : Nat → Nat → α) (c : Nat) :
    ∀ (r y x : Nat), y < r → x < c →
      ((List.range r).flatMap fun y => (List.range c).map (f y))[y * c + x]? = some (f y x)
  | 0, _, _, hy, _ => absurd hy (Nat.not_lt_zero _)
  | r + 1, y, x, hy, hx => by
    rw [List.range_succ, List.flatMap_append, List.flatMap_singleton]
    by_cases hyr : y < r
    · rw [List.getElem?_append_left]
      · exact grid_getElem? f c r y x hyr hx
      · rw [grid_length]
        calc y * c + x < y * c + c := by omega
          _ = (y + 1) * c := by ring
          _ ≤ r * c := Nat.mul_le_mul_right c hyr
    · have hyeq : y = r := by omega
      subst hyeq
      rw [List.getElem?_append_right (by rw [grid_length]; omega), grid_length,
        Nat.add_sub_cancel_left, List.getElem?_map, List.getElem?_range hx]
      rfl

/-- C8. Tilemap draw output: on the 368x240 screen, for a tilemap built by `tilemap_init`
and scrolled to any `(sx, sy)`, `tilemap_draw` issues the 360 calls of 15 rows (outer) by
24 columns (inner), the call of row `y` and column `x` at position `y * 24 + x`; each is
16x16, reads the atlas at `(32, 0)`, the table entry of index 2, and is drawn at
`(x * 16 - soft_scroll_x, y * 16)`.  The calls depend on the tilemap only through its
texture and `soft_scroll_x`, which is computed from `sx` alone. -/
theorem tilemap_draw_calls (game_screen : Screen) (hw : game_screen.width = GAME_WIDTH)
    (hh : game_screen.height = GAME_HEIGHT) (width height : Int) (texture : Texture)
    (tilemap : Tilemap) (hlen : tilemap.tile_postab.length = TILE_POSTAB_SIZE) (sx sy : ℚ) :
    tilemap_draw game_screen { tilemap_init width height texture tilemap with x := sx, y := sy }
      = ((List.range 15).flatMap fun (y : Nat) => (List.range 24).map fun (x : Nat) =>
          draw_subimage_rect texture ((x : Int) * 16 - Int.tmod (float_to_int sx) 16)
            ((y : Int) * 16) 16 16 32 0) ∧
    (tilemap_draw game_screen
      { tilemap_init width height texture tilemap with x := sx, y := sy }).length = 360 ∧
    (∀ y x : Nat, y < 15 → x < 24 →
      (tilemap_draw game_screen
        { tilemap_init width height texture tilemap with x := sx, y := sy })[y * 24 + x]?
        = some
          { texture := texture
            src := { x := 32, y := 0, w := 16, h := 16 }
            dest := { x := (x : Int) * 16 - soft_scroll_x
                        { tilemap_init width height texture tilemap with x := sx, y := sy },
                      y := (y : Int) * 16, w := 16, h := 16 } }) := by
  have h2 := tilemap_init_entry width height texture tilemap hlen 2 (by decide)
  have heq := tilemap_draw_eq game_screen hw hh
    { tilemap_init width height texture tilemap with x := sx, y := sy } rfl
    (by simpa using h2.1) (by simpa using h2.2)
  have hsoft : soft_scroll_x { tilemap_init width height texture tilemap with x := sx, y := sy }
      = Int.tmod (float_to_int sx) 16 := rfl
  rw [hsoft] at heq ⊢
  have htex : ({ tilemap_init width height texture tilemap with x := sx, y := sy } : Tilemap).texture
      = texture := rfl
  rw [htex] at heq
  refine ⟨heq, ?_, ?_⟩
  · rw [heq, grid_length]
  · intro y x hy hx
    rw [heq, grid_getElem? _ 24 15 y x hy hx]
    rfl

/-- On the screen of `init_screen(368, 240, 3)`, for the tilemap of `tilemap_init(40, 14, 7)`
scrolled to `x = 37/2`: `soft_scroll_x` is 2, there are 360 calls, and the call of row 1 and
column 23 goes to `(366, 16)`. -/
theorem tilemap_draw_calls_witness :
    (init_screen GAME_WIDTH GAME_HEIGHT GAME_SCALE screen_zero).width = GAME_WIDTH ∧
    (init_screen GAME_WIDTH GAME_HEIGHT GAME_SCALE screen_zero).height = GAME_HEIGHT ∧
    tilemap_zero.tile_postab.length = TILE_POSTAB_SIZE ∧
    (tilemap_draw (init_screen GAME_WIDTH GAME_HEIGHT GAME_SCALE screen_zero)
      { tilemap_init 40 14 7 tilemap_zero with x := 37 / 2, y := 5 }).length = 360 ∧
    (tilemap_draw (init_screen GAME_WIDTH GAME_HEIGHT GAME_SCALE screen_zero)
      { tilemap_init 40 14 7 tilemap_zero with x := 37 / 2, y := 5 })[1 * 24 + 23]?
      = some
        { texture := 7
          src := { x := 32, y := 0, w := 16, h := 16 }
          dest := { x := 366, y := 16, w := 16, h := 16 } } := by
  have hlen : tilemap_zero.tile_postab.length = TILE_POSTAB_SIZE := by
    simp [tilemap_zero]
  have h := tilemap_draw_calls (init_screen GAME_WIDTH GAME_HEIGHT GAME_SCALE screen_zero)
    rfl rfl 40 14 7 tilemap_zero hlen (37 / 2) 5
  have hfloor : float_to_int (37 / 2 : ℚ) = 18 := by
    have : ⌊(37 / 2 : ℚ)⌋ = 18 := by norm_num [Int.floor_eq_iff]
    simp [float_to_int, this]
    norm_num
  have hsoft : soft_scroll_x { tilemap_init 40 14 7 tilemap_zero with x := 37 / 2, y := 5 }
      = 2 := by
    show Int.tmod (float_to_int (37 / 2 : ℚ)) 16 = 2
    rw [hfloor]
    decide
  refine ⟨rfl, rfl, hlen, h.2.1, ?_⟩
  rw [h.2.2 1 23 (by decide) (by decide), hsoft]
  rfl

/-! ## Coverage of the backbuffer -/

theorem mem_tilemap_draw (game_screen : Screen) (hw : game_screen.width = GAME_WIDTH)
    (hh : game_screen.height = GAME_HEIGHT) (tm : Tilemap) (hts : tm.tilesize = 16)
    (h4 : tm.tile_postab[4]? = some 32) (h5 : tm.tile_postab[5]? = some 0) (call : DrawCall) :
    call ∈ tilemap_draw game_screen tm ↔
      ∃ y x : Nat, y < 15 ∧ x < 24 ∧
        call = draw_subimage_rect tm.texture ((x : Int) * 16 - soft_scroll_x tm)
          ((y : Int) * 16) 16 16 32 0 := by
  rw [tilemap_draw_eq game_screen hw hh tm hts h4 h5]
  simp only [List.mem_flatMap, List.mem_map, List.mem_range]
  constructor
  · rintro ⟨y, hy, x, hx, rfl⟩
    exact ⟨y, x, hy, hx, rfl⟩
  · rintro ⟨y, x, hy, hx, rfl⟩
    exact ⟨y, hy, x, hx, rfl⟩

theorem mem_without_column (col : Int) (tm : Tilemap) (calls : List DrawCall) (call : DrawCall) :
    call ∈ without_column col tm calls ↔
      call ∈ calls ∧ call.dest.x ≠ col * tm.tilesize - soft_scroll_x tm := by
  simp [without_column]

/-- With `soft_scroll_x` in `[0, 16)` the 24 columns and 15 rows cover the backbuffer. -/
theorem tilemap_draw_covers (game_screen : Screen) (hw : game_screen.width = GAME_WIDTH)
    (hh : game_screen.height = GAME_HEIGHT) (tm : Tilemap) (hts : tm.tilesize = 16)
    (h4 : tm.tile_postab[4]? = some 32) (h5 : tm.tile_postab[5]? = some 0)
    (h0 : 0 ≤ soft_scroll_x tm) (h16 : soft_scroll_x tm < 16) :
    covers_backbuffer (tilemap_draw game_screen tm) := by
  intro px py hpx0 hpx hpy0 hpy
  simp only [GAME_WIDTH, GAME_HEIGHT] at hpx hpy
  obtain ⟨x, hx⟩ : ∃ x : Nat, (px + soft_scroll_x tm) / 16 = (x : Int) :=
    ⟨((px + soft_scroll_x tm) / 16).toNat, (Int.toNat_of_nonneg (by omega)).symm⟩
  obtain ⟨y, hy⟩ : ∃ y : Nat, py / 16 = (y : Int) :=
    ⟨(py / 16).toNat, (Int.toNat_of_nonneg (by omega)).symm⟩
  refine ⟨_, (mem_tilemap_draw game_screen hw hh tm hts h4 h5 _).2
    ⟨y, x, by omega, by omega, rfl⟩, ?_⟩
  simp only [covers, draw_subimage_rect]
  omega

/-- Without column 23 and with `soft_scroll_x` in `[1, 16)` the pixel `(367, 0)` of the
right edge is in no destination rectangle. -/
theorem without_last_column_not_covers (game_screen : Screen)
    (hw : game_screen.width = GAME_WIDTH) (hh : game_screen.height = GAME_HEIGHT)
    (tm : Tilemap) (hts : tm.tilesize = 16)
    (h4 : tm.tile_postab[4]? = some 32) (h5 : tm.tile_postab[5]? = some 0)
    (h1 : 0 < soft_scroll_x tm) :
    ¬ covers_backbuffer (without_column 23 tm (tilemap_draw game_screen tm)) := by
  intro hcov
  obtain ⟨call, hmem, hc⟩ := hcov 367 0 (by decide) (by decide) (by decide) (by decide)
  rw [mem_without_column, mem_tilemap_draw game_screen hw hh tm hts h4 h5] at hmem
  obtain ⟨⟨y, x, hy, hx, rfl⟩, hne⟩ := hmem
  simp only [covers, draw_subimage_rect, hts] at hc hne
  omega

/-- Without column 23 and with `soft_scroll_x = 0` the columns 0 to 22 cover the
backbuffer, whose width 368 is 23 tiles. -/
theorem without_last_column_covers (game_screen : Screen)
    (hw : game_screen.width = GAME_WIDTH) (hh : game_screen.height = GAME_HEIGHT)
    (tm : Tilemap) (hts : tm.tilesize = 16)
    (h4 : tm.tile_postab[4]? = some 32) (h5 : tm.tile_postab[5]? = some 0)
    (h0 : soft_scroll_x tm = 0) :
    covers_backbuffer (without_column 23 tm (tilemap_draw game_screen tm)) := by
  intro px py hpx0 hpx hpy0 hpy
  simp only [GAME_WIDTH, GAME_HEIGHT] at hpx hpy
  obtain ⟨x, hx⟩ : ∃ x : Nat, px / 16 = (x : Int) :=
    ⟨(px / 16).toNat, (Int.toNat_of_nonneg (by omega)).symm⟩
  obtain ⟨y, hy⟩ : ∃ y : Nat, py / 16 = (y : Int) :=
    ⟨(py / 16).toNat, (Int.toNat_of_nonneg (by omega)).symm⟩
  refine ⟨draw_subimage_rect tm.texture ((x : Int) * 16 - soft_scroll_x tm) ((y : Int) * 16)
    16 16 32 0, ?_, ?_⟩
  · rw [mem_without_column, mem_tilemap_draw game_screen hw hh tm hts h4 h5]
    refine ⟨⟨y, x, by omega, by omega, rfl⟩, ?_⟩
    simp only [draw_subimage_rect, hts, h0]
    omega
  · simp only [covers, draw_subimage_rect, h0]
    omega

/-! ## Soft scroll and the scroll guard -/

theorem neg_tmod (a b : Int) : Int.tmod (-a) b = -(Int.tmod a b) := by
  rw [Int.tmod_def, Int.tmod_def, Int.neg_tdiv]; ring

theorem float_to_int_of_nonneg (f : ℚ) (h : 0 ≤ f) :
    float_to_int f = ⌊f⌋ ∧ 0 ≤ float_to_int f := by
  have hf : float_to_int f = ⌊f⌋ := by simp [float_to_int, h]
  exact ⟨hf, by rw [hf]; exact Int.floor_nonneg.2 h⟩

theorem float_to_int_of_neg (f : ℚ) (h : f < 0) :
    float_to_int f = -⌊-f⌋ ∧ float_to_int f ≤ 0 := by
  have hf : float_to_int f = -⌊-f⌋ := by
    simp [float_to_int, not_le.2 h, Int.floor_neg]
  refine ⟨hf, ?_⟩
  rw [hf]
  have : 0 ≤ ⌊-f⌋ := Int.floor_nonneg.2 (by linarith)
  omega

/-- The values of `soft_scroll_x` for tile size 16, by the sign of `tilemap.x`. -/
theorem soft_scroll_x_cases (tilemap : Tilemap) (hts : tilemap.tilesize = 16) :
    (0 ≤ tilemap.x →
      soft_scroll_x tilemap = ⌊tilemap.x⌋ % 16 ∧
      0 ≤ soft_scroll_x tilemap ∧ soft_scroll_x tilemap < 16) ∧
    (tilemap.x < 0 →
      soft_scroll_x tilemap = -(⌊-tilemap.x⌋ % 16) ∧
      -16 < soft_scroll_x tilemap ∧ soft_scroll_x tilemap ≤ 0) := by
  constructor
  · intro h
    obtain ⟨hf, hnn⟩ := float_to_int_of_nonneg tilemap.x h
    have hs : soft_scroll_x tilemap = ⌊tilemap.x⌋ % 16 := by
      unfold soft_scroll_x
      rw [hts, Int.tmod_eq_emod hnn (by decide), hf]
    rw [hs]
    omega
  · intro h
    obtain ⟨hf, _⟩ := float_to_int_of_neg tilemap.x h
    have hnn : 0 ≤ ⌊-tilemap.x⌋ := Int.floor_nonneg.2 (by linarith)
    have hs : soft_scroll_x tilemap = -(⌊-tilemap.x⌋ % 16) := by
      unfold soft_scroll_x
      rw [hts, hf, neg_tmod, Int.tmod_eq_emod hnn (by decide)]
    rw [hs]
    omega

theorem game_update_tilemap (g : Game) :
    (game_update g).tilemap
      = if scroll_guard g.tilemap then { g.tilemap with x := g.tilemap.x + 15 * g.delta_time }
        else g.tilemap := by
  unfold game_update
  split_ifs <;> rfl

theorem game_frame_tilemap (K : Keycodes) (f : FrameInput) (g : Game) :
    (game_frame K f g).tilemap
      = if scroll_guard g.tilemap then { g.tilemap with x := g.tilemap.x + 15 * f.delta }
        else g.tilemap := by
  unfold game_frame
  rw [game_update_tilemap]

theorem game_frames_cons (K : Keycodes) (f : FrameInput) (frames : List FrameInput) (g : Game) :
    game_frames K (f :: frames) g = game_frames K frames (game_frame K f g) := rfl

theorem game_frames_nil (K : Keycodes) (g : Game) : game_frames K [] g = g := rfl

/-- For the world of `tilemap_init(40, 14, _)` the guard says `x < 1280`. -/
theorem scroll_guard_iff_lt (tm : Tilemap) (hw : tm.width = 40) (hts : tm.tilesize = 16) :
    scroll_guard tm ↔ tm.x < 1280 := by
  unfold scroll_guard
  rw [hw, hts]
  norm_num
  constructor <;> intro h <;> linarith

theorem game_frame_tilemap_fields (K : Keycodes) (f : FrameInput) (g : Game) :
    (game_frame K f g).tilemap.width = g.tilemap.width ∧
    (game_frame K f g).tilemap.tilesize = g.tilemap.tilesize ∧
    (game_frame K f g).tilemap.x
      = if scroll_guard g.tilemap then g.tilemap.x + 15 * f.delta else g.tilemap.x := by
  rw [game_frame_tilemap]
  split_ifs <;> exact ⟨rfl, rfl, rfl⟩

theorem game_frames_tilemap_fields (K : Keycodes) :
    ∀ (frames : List FrameInput) (g : Game),
      (game_frames K frames g).tilemap.width = g.tilemap.width ∧
      (game_frames K frames g).tilemap.tilesize = g.tilemap.tilesize
  | [], _ => ⟨rfl, rfl⟩
  | f :: frames, g => by
    obtain ⟨h1, h2⟩ := game_frames_tilemap_fields K frames (game_frame K f g)
    obtain ⟨h3, h4, _⟩ := game_frame_tilemap_fields K f g
    rw [game_frames_cons, h1, h2, h3, h4]
    exact ⟨rfl, rfl⟩

theorem game_loop_start_tilemap (g0 : Game) :
    (game_loop_start g0).tilemap.width = 40 ∧ (game_loop_start g0).tilemap.tilesize = 16 ∧
    (game_loop_start g0).tilemap.x = 0 :=
  ⟨rfl, rfl, rfl⟩

/-- Frames with non-negative deltas keep `tilemap.x` non-negative. -/
theorem game_frames_x_nonneg (K : Keycodes) :
    ∀ (frames : List FrameInput) (g : Game), (∀ f ∈ frames, 0 ≤ f.delta) → 0 ≤ g.tilemap.x →
      0 ≤ (game_frames K frames g).tilemap.x
  | [], _, _, h => h
  | f :: frames, g, hpos, h => by
    rw [game_frames_cons]
    refine game_frames_x_nonneg K frames _ (fun f' hf' => hpos f' (List.mem_cons_of_mem _ hf')) ?_
    rw [(game_frame_tilemap_fields K f g).2.2]
    have hf := hpos f (List.mem_cons_self _ _)
    split_ifs <;> linarith

/-- Once `tilemap.x` is at or beyond 1280 no later frame changes it. -/
theorem game_frames_x_halted (K : Keycodes) :
    ∀ (frames : List FrameInput) (g : Game), g.tilemap.width = 40 → g.tilemap.tilesize = 16 →
      1280 ≤ g.tilemap.x → (game_frames K frames g).tilemap.x = g.tilemap.x
  | [], _, _, _, _ => rfl
  | f :: frames, g, hw, hts, h => by
    obtain ⟨h1, h2, h3⟩ := game_frame_tilemap_fields K f g
    have hg : ¬ scroll_guard g.tilemap := by
      rw [scroll_guard_iff_lt g.tilemap hw hts]; exact not_lt.2 h
    rw [if_neg hg] at h3
    rw [game_frames_cons, game_frames_x_halted K frames (game_frame K f g) (by rw [h1, hw])
      (by rw [h2, hts]) (by rw [h3]; exact h), h3]

/-- C2. Scroll wrap invariant: from the state set up by `game_loop` (`tilemap_init(40, 14, _)`,
so `scroll.x = 0` and tile size 16), after any finite sequence of frames whose deltas are
all non-negative, whatever keys are pressed, the `soft_scroll_x` that `tilemap_draw`
computes lies in `[0, 16)`. -/
theorem soft_scroll_x_wraps (K : Keycodes) (g0 : Game) (frames : List FrameInput)
    (hpos : ∀ f ∈ frames, 0 ≤ f.delta) :
    0 ≤ soft_scroll_x (game_frames K frames (game_loop_start g0)).tilemap ∧
    soft_scroll_x (game_frames K frames (game_loop_start g0)).tilemap < 16 := by
  have hts : (game_frames K frames (game_loop_start g0)).tilemap.tilesize = 16 :=
    (game_frames_tilemap_fields K frames (game_loop_start g0)).2
  have hx : 0 ≤ (game_frames K frames (game_loop_start g0)).tilemap.x :=
    game_frames_x_nonneg K frames (game_loop_start g0) hpos (le_of_eq rfl)
  exact ((soft_scroll_x_cases _ hts).1 hx).2

/-- Three frames from the zero-initialised globals, with deltas `1/60`, `100` and `7` and
some key events: `soft_scroll_x` is in `[0, 16)` afterwards. -/
theorem soft_scroll_x_wraps_witness :
    (∀ f ∈ ([⟨1 / 60, [(1073741904, true)]⟩, ⟨100, []⟩, ⟨7, [(27, true)]⟩] : List FrameInput),
      0 ≤ f.delta) ∧
    0 ≤ soft_scroll_x (game_frames sdl2Keycodes
      [⟨1 / 60, [(1073741904, true)]⟩, ⟨100, []⟩, ⟨7, [(27, true)]⟩]
      (game_loop_start (game_zero 1 2))).tilemap ∧
    soft_scroll_x (game_frames sdl2Keycodes
      [⟨1 / 60, [(1073741904, true)]⟩, ⟨100, []⟩, ⟨7, [(27, true)]⟩]
      (game_loop_start (game_zero 1 2))).tilemap < 16 :=
  have hpos : ∀ f ∈ ([⟨1 / 60, [(1073741904, true)]⟩, ⟨100, []⟩, ⟨7, [(27, true)]⟩] :
      List FrameInput), 0 ≤ f.delta := by
    intro f hf
    simp only [List.mem_cons, List.mem_singleton, List.not_mem_nil, or_false] at hf
    rcases hf with rfl | rfl | rfl <;> norm_num
  ⟨hpos, soft_scroll_x_wraps sdl2Keycodes (game_zero 1 2) _ hpos⟩

/-- The claim of C5 fails at negative `scroll.x`: for `scroll.x = -1` the code computes
`soft_scroll_x = -1`, outside `[0, 16)`, while `floor(-1) mod 16 = 15`; for
`scroll.x = -1/2` it computes `0`, while `floor(-1/2) mod 16 = 15`. -/
theorem soft_scroll_x_negative_counterexample :
    soft_scroll_x { tilemap_init 40 14 7 tilemap_zero with x := -1 } = -1 ∧
    ⌊(-1 : ℚ)⌋ % 16 = 15 ∧
    ¬ (0 ≤ soft_scroll_x { tilemap_init 40 14 7 tilemap_zero with x := -1 }) ∧
    soft_scroll_x { tilemap_init 40 14 7 tilemap_zero with x := -1 / 2 } = 0 ∧
    ⌊(-1 / 2 : ℚ)⌋ % 16 = 15 := by
  have h1 : soft_scroll_x { tilemap_init 40 14 7 tilemap_zero with x := -1 } = -1 := by
    show Int.tmod (float_to_int (-1 : ℚ)) 16 = -1
    have hc : ⌈(-1 : ℚ)⌉ = -1 := by rw [Int.ceil_eq_iff]; norm_num
    have : float_to_int (-1 : ℚ) = -1 := by
      unfold float_to_int
      rw [if_neg (by norm_num), hc]
    rw [this]
    decide
  have h2 : soft_scroll_x { tilemap_init 40 14 7 tilemap_zero with x := -1 / 2 } = 0 := by
    show Int.tmod (float_to_int (-1 / 2 : ℚ)) 16 = 0
    have hc : ⌈(-1 / 2 : ℚ)⌉ = 0 := by rw [Int.ceil_eq_iff]; norm_num
    have : float_to_int (-1 / 2 : ℚ) = 0 := by
      unfold float_to_int
      rw [if_neg (by norm_num), hc]
    rw [this]
    decide
  have f1 : ⌊(-1 : ℚ)⌋ = -1 := by rw [Int.floor_eq_iff]; norm_num
  have f2 : ⌊(-1 / 2 : ℚ)⌋ = -1 := by rw [Int.floor_eq_iff]; norm_num
  refine ⟨h1, by rw [f1]; decide, by rw [h1]; decide, h2, by rw [f2]; decide⟩

/-- C5 (amended). Soft scroll for tile size 16, for `scroll.x` whose truncation fits a
32-bit `int`: for every `scroll.x ≥ 0` with `(int) scroll.x ≤ INT_MAX`,
`soft_scroll_x = floor(scroll.x) mod 16` and it lies in `[0, 16)`; for every negative
`scroll.x` with `INT_MIN ≤ (int) scroll.x` the code gives the C remainder of the value
truncated toward zero, `-(floor(-scroll.x) mod 16)`, which lies in `(-16, 0]`. -/
theorem soft_scroll_x_truncating (tilemap : Tilemap) (hts : tilemap.tilesize = 16) :
    (0 ≤ tilemap.x → float_to_int tilemap.x ≤ INT_MAX →
      soft_scroll_x tilemap = ⌊tilemap.x⌋ % 16 ∧
      0 ≤ soft_scroll_x tilemap ∧ soft_scroll_x tilemap < 16) ∧
    (tilemap.x < 0 → INT_MIN ≤ float_to_int tilemap.x →
      soft_scroll_x tilemap = -(⌊-tilemap.x⌋ % 16) ∧
      -16 < soft_scroll_x tilemap ∧ soft_scroll_x tilemap ≤ 0) :=
  ⟨fun h _ => (soft_scroll_x_cases tilemap hts).1 h,
    fun h _ => (soft_scroll_x_cases tilemap hts).2 h⟩

/-- At `scroll.x = 2000000000 + 1/3`, whose truncation `2000000000` is below `INT_MAX`, the
soft scroll is `floor mod 16 = 0`, in `[0, 16)`; at `scroll.x = -35/2`, whose truncation is
`-17`, it is `-1`, in `(-16, 0]`. -/
theorem soft_scroll_x_truncating_witness :
    ({ tilemap_init 40 14 7 tilemap_zero with x := 2000000000 + 1 / 3 } : Tilemap).tilesize
      = 16 ∧
    float_to_int (2000000000 + 1 / 3 : ℚ) = 2000000000 ∧
    float_to_int (2000000000 + 1 / 3 : ℚ) ≤ INT_MAX ∧
    float_to_int (-35 / 2 : ℚ) = -17 ∧
    INT_MIN ≤ float_to_int (-35 / 2 : ℚ) ∧
    (soft_scroll_x { tilemap_init 40 14 7 tilemap_zero with x := 2000000000 + 1 / 3 }
        = ⌊(2000000000 + 1 / 3 : ℚ)⌋ % 16 ∧
      0 ≤ soft_scroll_x { tilemap_init 40 14 7 tilemap_zero with x := 2000000000 + 1 / 3 } ∧
      soft_scroll_x { tilemap_init 40 14 7 tilemap_zero with x := 2000000000 + 1 / 3 }
        < 16) ∧
    (soft_scroll_x { tilemap_init 40 14 7 tilemap_zero with x := -35 / 2 }
        = -(⌊-(-35 / 2 : ℚ)⌋ % 16) ∧
      -16 < soft_scroll_x { tilemap_init 40 14 7 tilemap_zero with x := -35 / 2 } ∧
      soft_scroll_x { tilemap_init 40 14 7 tilemap_zero with x := -35 / 2 } ≤ 0) := by
  have hbig : float_to_int (2000000000 + 1 / 3 : ℚ) = 2000000000 := by
    have hfl : ⌊(2000000000 + 1 / 3 : ℚ)⌋ = 2000000000 := by
      rw [Int.floor_eq_iff]; norm_num
    unfold float_to_int
    rw [if_pos (by norm_num), hfl]
  have hneg : float_to_int (-35 / 2 : ℚ) = -17 := by
    have hc : ⌈(-35 / 2 : ℚ)⌉ = -17 := by rw [Int.ceil_eq_iff]; norm_num
    unfold float_to_int
    rw [if_neg (by norm_num), hc]
  have hmax : float_to_int (2000000000 + 1 / 3 : ℚ) ≤ INT_MAX := by
    rw [hbig]; decide
  have hmin : INT_MIN ≤ float_to_int (-35 / 2 : ℚ) := by
    rw [hneg]; decide
  exact ⟨rfl, hbig, hmax, hneg, hmin,
    (soft_scroll_x_truncating
      { tilemap_init 40 14 7 tilemap_zero with x := 2000000000 + 1 / 3 } rfl).1
      (by norm_num) hmax,
    (soft_scroll_x_truncating
      { tilemap_init 40 14 7 tilemap_zero with x := -35 / 2 } rfl).2 (by norm_num) hmin⟩

/-- One frame on the world of `tilemap_init(40, 14, _)`: below 1280 the frame adds
`15 * delta`, from 1280 on it leaves `tilemap.x` as it is. -/
theorem game_frame_x (K : Keycodes) (f : FrameInput) (g : Game) (hw : g.tilemap.width = 40)
    (hts : g.tilemap.tilesize = 16) :
    (game_frame K f g).tilemap.width = 40 ∧ (game_frame K f g).tilemap.tilesize = 16 ∧
    (g.tilemap.x < 1280 → (game_frame K f g).tilemap.x = g.tilemap.x + 15 * f.delta) ∧
    (1280 ≤ g.tilemap.x → (game_frame K f g).tilemap.x = g.tilemap.x) := by
  obtain ⟨h1, h2, h3⟩ := game_frame_tilemap_fields K f g
  refine ⟨by rw [h1, hw], by rw [h2, hts], fun h => ?_, fun h => ?_⟩
  · rw [h3, if_pos ((scroll_guard_iff_lt g.tilemap hw hts).2 h)]
  · rw [h3, if_neg (fun hg => absurd ((scroll_guard_iff_lt g.tilemap hw hts).1 hg) (not_lt.2 h))]

/-- The claim of C6 fails: after three frames of 30 seconds `scroll.x` is 1350, the guard
`scroll.x - 640 < 640` is false, and a fourth frame of 30 seconds leaves `scroll.x` at
1350 instead of adding `15 * 30`. -/
theorem scroll_guard_counterexample :
    (game_frames sdl2Keycodes [⟨30, []⟩, ⟨30, []⟩, ⟨30, []⟩]
      (game_loop_start (game_zero 1 2))).tilemap.x = 1350 ∧
    ¬ scroll_guard (game_frames sdl2Keycodes [⟨30, []⟩, ⟨30, []⟩, ⟨30, []⟩]
      (game_loop_start (game_zero 1 2))).tilemap ∧
    (game_frames sdl2Keycodes [⟨30, []⟩, ⟨30, []⟩, ⟨30, []⟩, ⟨30, []⟩]
      (game_loop_start (game_zero 1 2))).tilemap.x = 1350 := by
  obtain ⟨w0, t0, x0⟩ := game_loop_start_tilemap (game_zero 1 2)
  obtain ⟨w1, t1, a1, _⟩ := game_frame_x sdl2Keycodes ⟨30, []⟩ _ w0 t0
  have x1 := a1 (by rw [x0]; norm_num)
  rw [x0] at x1
  obtain ⟨w2, t2, a2, _⟩ := game_frame_x sdl2Keycodes ⟨30, []⟩ _ w1 t1
  have x2 := a2 (by rw [x1]; norm_num)
  rw [x1] at x2
  obtain ⟨w3, t3, a3, _⟩ := game_frame_x sdl2Keycodes ⟨30, []⟩ _ w2 t2
  have x3 := a3 (by rw [x2]; norm_num)
  rw [x2] at x3
  obtain ⟨_, _, _, b4⟩ := game_frame_x sdl2Keycodes ⟨30, []⟩ _ w3 t3
  have x4 := b4 (by rw [x3]; norm_num)
  rw [x3] at x4
  simp only [game_frames_cons, game_frames_nil]
  refine ⟨by rw [x3]; norm_num, ?_, by rw [x4]; norm_num⟩
  rw [scroll_guard_iff_lt _ w3 t3, x3]
  norm_num

/-- C6 (amended). The scroll guard halts the scrolling at 1280: for the tilemap built by
`tilemap_init(40, 14, _)` (world width 640 px), in every state reached from `scroll.x = 0`
through any frames, the guard of `game_update` is true exactly when `scroll.x < 1280`; a
frame with delta `d` adds `15 * d` to `scroll.x` when `scroll.x < 1280`, and once
`scroll.x ≥ 1280` no sequence of further frames changes `scroll.x`. -/
theorem scroll_guard_halts (K : Keycodes) (g0 : Game) (frames : List FrameInput) :
    (scroll_guard (game_frames K frames (game_loop_start g0)).tilemap ↔
      (game_frames K frames (game_loop_start g0)).tilemap.x < 1280) ∧
    (∀ f : FrameInput, (game_frames K frames (game_loop_start g0)).tilemap.x < 1280 →
      (game_frame K f (game_frames K frames (game_loop_start g0))).tilemap.x
        = (game_frames K frames (game_loop_start g0)).tilemap.x + 15 * f.delta) ∧
    (∀ more : List FrameInput, 1280 ≤ (game_frames K frames (game_loop_start g0)).tilemap.x →
      (game_frames K more (game_frames K frames (game_loop_start g0))).tilemap.x
        = (game_frames K frames (game_loop_start g0)).tilemap.x) := by
  obtain ⟨w0, t0, _⟩ := game_loop_start_tilemap g0
  obtain ⟨hw, hts⟩ := game_frames_tilemap_fields K frames (game_loop_start g0)
  rw [w0] at hw
  rw [t0] at hts
  exact ⟨scroll_guard_iff_lt _ hw hts, fun f h => (game_frame_x K f _ hw hts).2.2.1 h,
    fun more h => game_frames_x_halted K more _ hw hts h⟩

/-- Directly after `game_loop` has set up the tilemap a frame of `1/60` second adds `1/4`
to `scroll.x`. -/
theorem scroll_guard_halts_witness :
    (game_loop_start (game_zero 1 2)).tilemap.x < 1280 ∧
    (game_frame sdl2Keycodes ⟨1 / 60, []⟩ (game_loop_start (game_zero 1 2))).tilemap.x
      = (game_loop_start (game_zero 1 2)).tilemap.x + 15 * (1 / 60) :=
  have hlt : (game_loop_start (game_zero 1 2)).tilemap.x < 1280 := by
    rw [(game_loop_start_tilemap (game_zero 1 2)).2.2]; norm_num
  ⟨hlt, (scroll_guard_halts sdl2Keycodes (game_zero 1 2) []).2.1 ⟨1 / 60, []⟩ hlt⟩

/-- The conversion `(int) tilemap.x` stays inside the range of a 32-bit `int`: with every
delta between 0 and 4294968 seconds (more than `SDL_GetTicks` can measure), `tilemap.x`
stays below `1280 + 15 * 4294968`, hence below `2^31`. -/
theorem scroll_x_fits_int (K : Keycodes) :
    ∀ (frames : List FrameInput) (g : Game), g.tilemap.width = 40 → g.tilemap.tilesize = 16 →
      (∀ f ∈ frames, 0 ≤ f.delta ∧ f.delta ≤ 4294968) →
      0 ≤ g.tilemap.x → g.tilemap.x < 1280 + 15 * 4294968 →
      0 ≤ float_to_int (game_frames K frames g).tilemap.x ∧
      float_to_int (game_frames K frames g).tilemap.x < 2 ^ 31
  | [], g, _, _, _, h0, h1 => by
    obtain ⟨hf, hnn⟩ := float_to_int_of_nonneg g.tilemap.x h0
    refine ⟨hnn, ?_⟩
    rw [game_frames_nil, hf, Int.floor_lt]
    norm_num
    linarith
  | f :: frames, g, hw, hts, hd, h0, h1 => by
    obtain ⟨w1, t1, a1, b1⟩ := game_frame_x K f g hw hts
    obtain ⟨hf0, hf1⟩ := hd f (List.mem_cons_self _ _)
    rw [game_frames_cons]
    refine scroll_x_fits_int K frames _ w1 t1
      (fun f' hf' => hd f' (List.mem_cons_of_mem _ hf')) ?_ ?_
    · rcases lt_or_le g.tilemap.x 1280 with h | h
      · rw [a1 h]; linarith
      · rw [b1 h]; exact h0
    · rcases lt_or_le g.tilemap.x 1280 with h | h
      · rw [a1 h]; linarith
      · rw [b1 h]; exact h1

/-- The claim of C10 fails at `soft_scroll_x = 0`: directly after `tilemap_init(40, 14, 7)`
the soft scroll is 0 and the calls of columns 0 to 22 alone, without column 23, cover
every pixel of the 368x240 backbuffer. -/
theorem last_column_needed_counterexample :
    soft_scroll_x (tilemap_init 40 14 7 tilemap_zero) = 0 ∧
    covers_backbuffer
      (without_column 23 (tilemap_init 40 14 7 tilemap_zero)
        (tilemap_draw (init_screen GAME_WIDTH GAME_HEIGHT GAME_SCALE screen_zero)
          (tilemap_init 40 14 7 tilemap_zero))) := by
  have hlen : tilemap_zero.tile_postab.length = TILE_POSTAB_SIZE := by
    simp [tilemap_zero]
  have h2 := tilemap_init_entry 40 14 7 tilemap_zero hlen 2 (by decide)
  have hs : soft_scroll_x (tilemap_init 40 14 7 tilemap_zero) = 0 := by
    show Int.tmod (float_to_int (0 : ℚ)) 16 = 0
    simp [float_to_int]
  exact ⟨hs, without_last_column_covers _ rfl rfl _ rfl (by simpa using h2.1)
    (by simpa using h2.2) hs⟩

/-- C10 (amended). The extra column covers the scrolled edge: on the 368x240 screen, for a
tilemap built by `tilemap_init` and scrolled so that `soft_scroll_x` is in `[0, 16)`, the
16x16 tiles drawn by `tilemap_draw` (columns 0 to 23, rows 0 to 14) cover every backbuffer
pixel; without the last column (`x = 23`) this fails for every `soft_scroll_x` in
`[1, 16)`, and holds for `soft_scroll_x = 0`. -/
theorem extra_column_covers_edge (game_screen : Screen) (hw : game_screen.width = GAME_WIDTH)
    (hh : game_screen.height = GAME_HEIGHT) (width height : Int) (texture : Texture)
    (tilemap : Tilemap) (hlen : tilemap.tile_postab.length = TILE_POSTAB_SIZE) (sx sy : ℚ)
    (h0 : 0 ≤ soft_scroll_x { tilemap_init width height texture tilemap with x := sx, y := sy })
    (h16 : soft_scroll_x { tilemap_init width height texture tilemap with x := sx, y := sy }
      < 16) :
    covers_backbuffer (tilemap_draw game_screen
      { tilemap_init width height texture tilemap with x := sx, y := sy }) ∧
    (1 ≤ soft_scroll_x { tilemap_init width height texture tilemap with x := sx, y := sy } →
      ¬ covers_backbuffer
        (without_column 23 { tilemap_init width height texture tilemap with x := sx, y := sy }
          (tilemap_draw game_screen
            { tilemap_init width height texture tilemap with x := sx, y := sy }))) ∧
    (soft_scroll_x { tilemap_init width height texture tilemap with x := sx, y := sy } = 0 →
      covers_backbuffer
        (without_column 23 { tilemap_init width height texture tilemap with x := sx, y := sy }
          (tilemap_draw game_screen
            { tilemap_init width height texture tilemap with x := sx, y := sy }))) := by
  have h2 := tilemap_init_entry width height texture tilemap hlen 2 (by decide)
  have h4 : ({ tilemap_init width height texture tilemap with x := sx, y := sy }
      : Tilemap).tile_postab[4]? = some 32 := by simpa using h2.1
  have h5 : ({ tilemap_init width height texture tilemap with x := sx, y := sy }
      : Tilemap).tile_postab[5]? = some 0 := by simpa using h2.2
  exact ⟨tilemap_draw_covers game_screen hw hh _ rfl h4 h5 h0 h16,
    fun h1 => without_last_column_not_covers game_screen hw hh _ rfl h4 h5 (by omega),
    fun hz => without_last_column_covers game_screen hw hh _ rfl h4 h5 hz⟩

/-- On the screen of `init_screen(368, 240, 3)` with the tilemap scrolled to `x = 37/2`
(`soft_scroll_x = 2`): all 24 columns cover the backbuffer, columns 0 to 22 do not. -/
theorem extra_column_covers_edge_witness :
    (init_screen GAME_WIDTH GAME_HEIGHT GAME_SCALE screen_zero).width = GAME_WIDTH ∧
    (init_screen GAME_WIDTH GAME_HEIGHT GAME_SCALE screen_zero).height = GAME_HEIGHT ∧
    tilemap_zero.tile_postab.length = TILE_POSTAB_SIZE ∧
    soft_scroll_x { tilemap_init 40 14 7 tilemap_zero with x := 37 / 2, y := 0 } = 2 ∧
    covers_backbuffer (tilemap_draw (init_screen GAME_WIDTH GAME_HEIGHT GAME_SCALE screen_zero)
      { tilemap_init 40 14 7 tilemap_zero with x := 37 / 2, y := 0 }) ∧
    ¬ covers_backbuffer
      (without_column 23 { tilemap_init 40 14 7 tilemap_zero with x := 37 / 2, y := 0 }
        (tilemap_draw (init_screen GAME_WIDTH GAME_HEIGHT GAME_SCALE screen_zero)
          { tilemap_init 40 14 7 tilemap_zero with x := 37 / 2, y := 0 })) := by
  have hlen : tilemap_zero.tile_postab.length = TILE_POSTAB_SIZE := by
    simp [tilemap_zero]
  have hfloor : float_to_int (37 / 2 : ℚ) = 18 := by
    have : ⌊(37 / 2 : ℚ)⌋ = 18 := by norm_num [Int.floor_eq_iff]
    simp [float_to_int, this]
    norm_num
  have hsoft : soft_scroll_x { tilemap_init 40 14 7 tilemap_zero with x := 37 / 2, y := 0 }
      = 2 := by
    show Int.tmod (float_to_int (37 / 2 : ℚ)) 16 = 2
    rw [hfloor]
    decide
  have h := extra_column_covers_edge (init_screen GAME_WIDTH GAME_HEIGHT GAME_SCALE screen_zero)
    rfl rfl 40 14 7 tilemap_zero hlen (37 / 2) 0 (by rw [hsoft]; decide) (by rw [hsoft]; decide)
  exact ⟨rfl, rfl, hlen, hsoft, h.1, h.2.1 (by rw [hsoft]; decide)⟩

end Shooter2D
